import Mathlib

/-!
Verification of the PhysioMonitor syringe-pump protocol engine.

This file is a shallow embedding of the pump command layer of
`src/pumps/SyringePumps.py` and of the bolus-injection caller logic of
`src/GUI/GUI.py`.  Python floats are modelled as rationals, Python strings
as Lean strings (lists of characters), and raising code as `Except`/`Option`
valued functions.  Each vendor adapter method is translated as a pure
function of the bytes the device answers on the wire, so that the framing,
unit-conversion and error-classification behaviour of the source can be
stated and proved.
-/

/-! ### Decimal digit and number rendering utilities (Python str/format semantics) -/

/-- The character for a decimal digit value, as in Python's rendering of numbers. -/
def digitChar (d : ℕ) : Char := Char.ofNat (48 + d)

/-- Numeric value of a decimal digit character. -/
def charVal (c : Char) : ℕ := c.toNat - 48

/-- Decimal digits of `n`, least significant first, with explicit fuel. -/
def natToDigitsRev : ℕ → ℕ → List Char
  | 0, _ => []
  | fuel + 1, n => if n = 0 then [] else digitChar (n % 10) :: natToDigitsRev fuel (n / 10)

/-- Decimal rendering of a natural number, most significant digit first,
mirroring Python's `str` of a non-negative integer. -/
def natToDigits (n : ℕ) : List Char := if n = 0 then ['0'] else (natToDigitsRev n n).reverse

/-- Value of a string of decimal digit characters, read left to right
(Python `int`/`float` semantics on digit-only strings). -/
def natValL (cs : List Char) : ℕ := cs.foldl (fun acc c => 10 * acc + charVal c) 0

/-- The three fractional digit characters of a `".3f"` rendering, `b < 1000`
being the fractional part in thousandths. -/
def pad3 (b : ℕ) : List Char := [digitChar (b / 100), digitChar (b / 10 % 10), digitChar (b % 10)]

/-- Left zero-padding to a minimum width, the `"05"` part of `"{:05.3f}"`. -/
def padZeros (w : ℕ) (l : List Char) : List Char := List.replicate (w - l.length) '0' ++ l

/-- Python `float()` applied to a plain decimal literal: digits, an optional
dot, and more digits.  Returns `none` where Python would raise `ValueError`. -/
def parseFloatL (cs : List Char) : Option ℚ :=
  let ip := cs.takeWhile (· ≠ '.')
  match cs.dropWhile (· ≠ '.') with
  | [] => if cs ≠ [] ∧ cs.all Char.isDigit then some (natValL cs) else none
  | '.' :: fs =>
      if (ip ≠ [] ∨ fs ≠ []) ∧ ip.all Char.isDigit ∧ fs.all Char.isDigit then
        some ((natValL ip : ℚ) + (natValL fs : ℚ) / 10 ^ fs.length)
      else none
  | _ :: _ => none

/-- The integer `⌊1000 v + 1/2⌋`: the `".3f"` rounding of `v` in thousandths.
Python rounds the underlying binary double to nearest; on the exact decimal
values exercised by the claims the two agree (no claim sits on a tie). -/
def roundMilli (v : ℚ) : ℤ := ⌊v * 1000 + 1 / 2⌋

/-- The string `"{:05.3f}".format(v)` for `v ≥ 0`: the value rounded to three
decimals, zero-padded on the left to a minimum width of five characters. -/
def fmt05_3 (v : ℚ) : List Char :=
  let m := (roundMilli v).toNat
  padZeros 5 (natToDigits (m / 1000) ++ '.' :: pad3 (m % 1000))

/-- `AladdinPump.format_float`: `"{:05.3f}".format(val)[:5]` — the fixed
five-character numeric field of the addressed-framed wire protocol. -/
def format_float (v : ℚ) : String := String.mk ((fmt05_3 v).take 5)

/-! ### Error taxonomy (the exception classes of `src/pumps/SyringePumps.py`) -/

/-- A raised `SyringePumpException`, with the payload where the source attaches
one.  `alarm` is the generic `AlarmException(status)` raised by
`AladdinPump.send_command`; `aladdinAlarm` is `AladdinAlarmException(status)`
raised by `AladdinPump.stop`. -/
inductive PumpError
  | valueOOR (msg : String)
  | unknownCommand
  | notRunning
  | notStopped
  | invalidAnswer
  | alarm (status : String)
  | aladdinAlarm (status : String)
  | invalidCommand (msg : String)
  | unforeseen (msg : String)
  deriving DecidableEq

/-- The Python exception class of a raised error, forgetting the payload. -/
inductive PumpErrClass
  | valueOOR
  | unknownCommand
  | notRunning
  | notStopped
  | invalidAnswer
  | alarm
  | aladdinAlarm
  | invalidCommand
  | unforeseen
  deriving DecidableEq

/-- Class of each raised exception: two errors of the same class differ only
in the message they carry, not in the Python type the caller can catch. -/
def PumpError.cls : PumpError → PumpErrClass
  | .valueOOR _ => .valueOOR
  | .unknownCommand => .unknownCommand
  | .notRunning => .notRunning
  | .notStopped => .notStopped
  | .invalidAnswer => .invalidAnswer
  | .alarm _ => .alarm
  | .aladdinAlarm _ => .aladdinAlarm
  | .invalidCommand _ => .invalidCommand
  | .unforeseen _ => .unforeseen

/-- `SyringePump.STATE`. -/
inductive STATE
  | stopped
  | infusing
  | withdrawing
  deriving DecidableEq

/-! ### Aladdin addressed-framed codec (`AladdinPump`) -/

/-- The one-letter status codes of `__ANS_PATTERN`:
infusing, withdrawing, stopped, paused, pause-phase, trigger-wait. -/
def aladdinStatusChars : List Char := ['I', 'W', 'S', 'P', 'T', 'U']

/-- The alarm sub-codes of `__ANS_PATTERN`:
reset, stalled, timeout, program error, phase out of range. -/
def aladdinAlarmChars : List Char := ['R', 'S', 'T', 'E', 'O']

/-- The status alternation of `__ANS_PATTERN`: either one status letter, or
`A?` followed by one alarm sub-code.  Returns the status group and the rest. -/
def statusSplit : List Char → Option (List Char × List Char)
  | 'A' :: '?' :: c :: rest => if c ∈ aladdinAlarmChars then some (['A', '?', c], rest) else none
  | c :: rest => if c ∈ aladdinStatusChars then some ([c], rest) else none
  | [] => none

/-- Python's `$` anchor matches before one final newline; model it by
stripping that newline before requiring the terminator. -/
def stripTrailingNewline (cs : List Char) : List Char :=
  if cs.getLast? = some '\n' then cs.dropLast else cs

/-- Match of `AladdinPump.__ANS_PATTERN`
`^\x02([0-9]{2})([IWSPTU]|A\?[RSTEO])(.*)\x03$` against a received byte
string, returning the `(address, status, message)` groups.  The `.` of the
message group does not cross a newline, and the final `\x03` is the one the
anchored `$` forces at the very end. -/
def ansMatchL (cs : List Char) : Option (List Char × List Char × List Char) :=
  let cs2 := stripTrailingNewline cs
  if cs2.getLast? = some '\x03' then
    match cs2.dropLast with
    | '\x02' :: d1 :: d2 :: rest =>
        if d1.isDigit ∧ d2.isDigit then
          match statusSplit rest with
          | some (st, msg) => if '\n' ∈ msg then none else some ([d1, d2], st, msg)
          | none => none
        else none
    | _ => none
  else none

/-- `AladdinPump.parse`: match the answer against `__ANS_PATTERN`; a frame the
pattern does not match raises `SyringePumpInvalidAnswerException`.  The echoed
address group is returned as matched; the pump's own address is not consulted
anywhere in the decode path. -/
def aladdinParse (s : String) : Except PumpError (String × String × String) :=
  match ansMatchL s.data with
  | none => .error .invalidAnswer
  | some (a, st, msg) => .ok (String.mk a, String.mk st, String.mk msg)

/-- Python's `in` on strings: substring containment. -/
def containsSeq : List Char → List Char → Bool
  | needle, [] => needle.isEmpty
  | needle, c :: rest => needle.isPrefixOf (c :: rest) || containsSeq needle rest

/-- `AladdinPump.send_command` with `return_all=True`, as a function of the raw
answer string read from the wire: parse the frame, raise the generic
`AlarmException(status)` when the status field contains `A?`, classify `?`
error payloads, otherwise return the `(address, status, message)` triple. -/
def aladdinSendCommandAll (ans : String) : Except PumpError (String × String × String) := do
  let (a, st, msg) ← aladdinParse ans
  if containsSeq "A?".data st.data then
    .error (.alarm st)
  else if containsSeq "?".data msg.data then
    if containsSeq "?OOR".data msg.data then .error (.valueOOR msg)
    else if containsSeq "?NA".data msg.data then .error (.invalidCommand msg)
    else .error (.unforeseen msg)
  else .ok (a, st, msg)

/-- `AladdinPump.send_command` with `return_all=False`: only the message. -/
def aladdinSendCommand (ans : String) : Except PumpError String :=
  (aladdinSendCommandAll ans).map (fun r => r.2.2)

/-- A well-formed device frame: STX, two-digit zero-padded address, status
field, message payload, ETX. -/
def mkFrame (addr : ℕ) (status msg : String) : String :=
  String.mk ('\x02' :: digitChar (addr / 10 % 10) :: digitChar (addr % 10) ::
    (status.data ++ msg.data ++ ['\x03']))

/-- `AladdinPump.is_running` as a function of the frame the device answers to
the empty status query: true exactly when the decoded status field equals
`__ANS_STATUS_INFUSING` (`"I"`) or `__ANS_STATUS_WITHDRAWING` (`"W"`). -/
def aladdin_is_running_ans (ans : String) : Except PumpError Bool :=
  (aladdinSendCommandAll ans).map (fun r => r.2.1 == "I" || r.2.1 == "W")

/-- A static Aladdin device, for relating consecutive status queries: the
one-letter status it reports in every answer frame, and the payload it
answers to the `DIR` query. -/
structure AladdinDevice where
  status : Char
  dirMsg : String

/-- The frame the device answers to the bare status query sent by `is_running`. -/
def AladdinDevice.statusFrame (dev : AladdinDevice) : String :=
  mkFrame 0 (String.mk [dev.status]) ""

/-- The frame the device answers to the `DIR` query. -/
def AladdinDevice.dirFrame (dev : AladdinDevice) : String :=
  mkFrame 0 (String.mk [dev.status]) dev.dirMsg

/-- `AladdinPump.is_running` against a static device. -/
def aladdin_is_running (dev : AladdinDevice) : Except PumpError Bool :=
  aladdin_is_running_ans dev.statusFrame

/-- `AladdinPump.get_direction`: when `is_running()` holds, query `DIR` and map
`INF`/`WDR` to the state (anything else raises
`SyringePumpInvalidAnswerException`); otherwise return `STATE.STOPPED`
without any further query. -/
def aladdin_get_direction (dev : AladdinDevice) : Except PumpError STATE :=
  match aladdin_is_running dev with
  | .error e => .error e
  | .ok true =>
      match aladdinSendCommand dev.dirFrame with
      | .error e => .error e
      | .ok ans =>
          if ans = "INF" then .ok .infusing
          else if ans = "WDR" then .ok .withdrawing
          else .error .invalidAnswer
  | .ok false => .ok .stopped

/-! ### Aladdin target volume (`set_target_volume_uL` / `get_target_volume_uL`) -/

/-- `AladdinPump.set_target_volume_uL`: negative volumes raise
`SyringePumpValueOORException`; otherwise read the current diameter, multiply
the value by `1e-3` when the diameter exceeds 14.0 mm (the wire unit is then
mL), and send the `format_float` rendering as the `VOL` field.  Returns the
five-character field written to the wire, which is what the device stores. -/
def aladdin_set_target_field (d x : ℚ) : Except PumpError String :=
  if x < 0 then .error (.valueOOR "Target volume must be a positive float value")
  else .ok (format_float (if 14 < d then x * (1 / 1000) else x))

/-- The device's answer payload to the `VOL` query: it echoes the stored
volume field followed by the unit code its current diameter implies
(per the device manual quoted in `convert_volume_units_to_uL`:
diameter ≤ 14.0 mm ⇒ µL, otherwise mL). -/
def aladdin_vol_answer (d : ℚ) (field : String) : String :=
  field ++ (if d ≤ 14 then "UL" else "ML")

/-- `AladdinPump.get_target_volume_uL`: split the answer into `ans[:-2]`
(the value, fed to `float`) and `ans[-2:]` (the unit code); multiply by
`1e3` when the unit code uppercased starts with `M`. -/
def aladdin_get_target_volume_uL (d : ℚ) (field : String) : Option ℚ :=
  let ans := (aladdin_vol_answer d field).data
  let valPart := ans.take (ans.length - 2)
  let units := ans.drop (ans.length - 2)
  match parseFloatL valPart with
  | none => none
  | some v => some (if units.head?.map Char.toUpper = some 'M' then v * 1000 else v)

/-- The set-then-get target volume round trip at a fixed current diameter. -/
def aladdin_target_roundtrip (d x : ℚ) : Except PumpError (Option ℚ) :=
  (aladdin_set_target_field d x).map (aladdin_get_target_volume_uL d)

/-! ### Aladdin rate (`set_rate` / `get_rate` / `get_units`) -/

/-- The two-letter rate unit codes `__ANS_UNITS`, indexed like
`SyringePump.UNITS = [mL/hr, mL/min, uL/hr, uL/min]`. -/
def aladdinUnitCode : Fin 4 → String
  | 0 => "MH"
  | 1 => "MM"
  | 2 => "UH"
  | 3 => "UM"

/-- `AladdinPump.set_rate`: non-positive rates raise
`SyringePumpValueOORException` (the unit index bound check of the source is
carried by the `Fin 4` type); otherwise the `RAT` command carries the
`format_float` rendering of the value and the unit code.  Returns the
five-character rate field written to the wire. -/
def aladdin_set_rate_field (v : ℚ) (_u : Fin 4) : Except PumpError String :=
  if v ≤ 0 then .error (.valueOOR "Rate must be a positive value")
  else .ok (format_float v)

/-- The device's answer payload to the `RAT` query: the stored five-character
rate field followed by its two-letter unit code. -/
def aladdin_rate_answer (field : String) (u : Fin 4) : String :=
  field ++ aladdinUnitCode u

/-- `AladdinPump.get_rate` applied to the `RAT` answer payload:
`float(ans[:-3])` — the comment in the source says this strips the units. -/
def aladdin_get_rate_of (ans : String) : Option ℚ :=
  parseFloatL (ans.data.take (ans.data.length - 3))

/-- `AladdinPump.get_units` applied to the `RAT` answer payload: the last two
characters `ans[-2:]`, looked up in `__ANS_UNITS` (an unknown code raises
`SyringePumpInvalidAnswerException`, modelled as `none`). -/
def aladdin_get_units_of (ans : String) : Option (Fin 4) :=
  let units := String.mk (ans.data.drop (ans.data.length - 2))
  if units = "MH" then some 0
  else if units = "MM" then some 1
  else if units = "UH" then some 2
  else if units = "UM" then some 3
  else none

/-- The set-then-get rate round trip: what `get_rate()` and `get_units()`
decode from the device's echo of the rate just set. -/
def aladdin_rate_roundtrip (v : ℚ) (u : Fin 4) : Except PumpError (Option ℚ × Option (Fin 4)) :=
  (aladdin_set_rate_field v u).map (fun f =>
    (aladdin_get_rate_of (aladdin_rate_answer f u), aladdin_get_units_of (aladdin_rate_answer f u)))

/-! ### Model 11 plus simple-prompt adapter (`Model11plusPump`) -/

/-- The Python values that can flow out of `Model11plusPump.get_direction`:
a `STATE` enum member for a recognized prompt, or `None` when the answer
matches no prompt. -/
inductive PyVal
  | state (s : STATE)
  | str (s : String)
  | pyNone
  deriving DecidableEq

/-- Python `==` between such values: an `IntEnum` member never compares equal
to a `str`, and `None` equals only `None`. -/
def pyEq : PyVal → PyVal → Bool
  | .state a, .state b => decide (a = b)
  | .str a, .str b => decide (a = b)
  | .pyNone, .pyNone => true
  | _, _ => false

/-- `Model11plusPump.__CMD_RUN`, the wire command issued by `run()`. -/
def m11_CMD_RUN : String := "RUN\r"

/-- `Model11plusPump.get_direction` as a function of the prompt string read
back from the device: `"\r\n>"` is forward, `"\r\n<"` reverse, `"\r\n:"`
stopped, and any other answer falls through to `None`. -/
def m11_get_direction (ans : String) : PyVal :=
  if ans = "\r\n>" then .state .infusing
  else if ans = "\r\n<" then .state .withdrawing
  else if ans = "\r\n:" then .state .stopped
  else .pyNone

/-- `Model11plusPump.run` (the body of `start()`): after sending `"RUN\r"`,
compare the value returned by `get_direction()` with the strings `"FWD"` and
`"REV"`; raise `SyringePumpNotRunningException` when neither comparison
holds.  The comparison is Python `==` between a `STATE` member (or `None`)
and a `str`. -/
def m11_run (dirAns : String) : Except PumpError Unit :=
  if pyEq (m11_get_direction dirAns) (.str "FWD") || pyEq (m11_get_direction dirAns) (.str "REV")
  then .ok () else .error .notRunning

/-- `Model11plusPump.stop`: after sending `"STP\r"`, compare the value
returned by `get_direction()` with the string `"STOPPED"`; raise
`SyringePumpNotStoppedException` when the comparison does not hold. -/
def m11_stop (dirAns : String) : Except PumpError Unit :=
  if pyEq (m11_get_direction dirAns) (.str "STOPPED") then .ok () else .error .notStopped

/-- `Model11plusPump.is_running`: `not self.get_status() == self.STATE.STOPPED`,
where `get_status()` returns the formatted info string of the pump. -/
def m11_is_running (statusInfo : String) : Bool :=
  !(pyEq (.str statusInfo) (.state .stopped))

/-! ### Harvard 11 Elite poll-mode adapter (`Harvard11ElitePump`) -/

/-- Whitespace for Python `str.split()` with no argument. -/
def isWsChar (c : Char) : Bool := c = ' ' || c = '\t' || c = '\n' || c = '\r'

/-- Helper for `splitWs`, carrying the current (reversed) field. -/
def splitWsAux : List Char → List Char → List (List Char)
  | [], acc => if acc = [] then [] else [acc.reverse]
  | c :: rest, acc =>
      if isWsChar c then
        if acc = [] then splitWsAux rest [] else acc.reverse :: splitWsAux rest []
      else splitWsAux rest (c :: acc)

/-- Python `str.split()` with no argument: split on runs of whitespace,
dropping empty fields. -/
def splitWs (cs : List Char) : List (List Char) := splitWsAux cs []

/-- Python `int()` on a plain digit string (as the status fields are). -/
def parseIntL (cs : List Char) : Option ℤ :=
  if cs ≠ [] ∧ cs.all Char.isDigit then some (natValL cs) else none

/-- The fields `Harvard11ElitePump._get_status` stores: rate (fL/s), infusion
time (ms), infused volume (fL), and the classification of the flag string. -/
structure HarvardStatus where
  rate_fL_per_sec : ℤ
  infuse_time_ms : ℤ
  infuse_vol_fL : ℤ
  state : STATE
  stalled : Bool
  target_reached : Bool

/-- `Harvard11ElitePump._get_status` applied to the stripped status line:
split on whitespace, parse the three integer fields, then classify the flag
string — a lower-case first flag character means stopped, otherwise `I` means
infusing and anything else withdrawing; `flags[2]` upper `S` flags a stall and
`flags[5]` upper `T` flags target-reached.  A short or unparsable line makes
the Python raise; that is modelled as `none`. -/
def harvard_get_status (statusStr : String) : Option HarvardStatus :=
  match splitWs statusStr.data with
  | f0 :: f1 :: f2 :: flags :: _ =>
      match parseIntL f0, parseIntL f1, parseIntL f2, flags with
      | some r, some t, some v, c0 :: _ :: c2 :: _ :: _ :: c5 :: _ =>
          some { rate_fL_per_sec := r, infuse_time_ms := t, infuse_vol_fL := v,
                 state := if c0.isLower then .stopped
                          else if c0 = 'I' then .infusing else .withdrawing,
                 stalled := decide (c2.toUpper = 'S'),
                 target_reached := decide (c5.toUpper = 'T') }
      | _, _, _, _ => none
  | _ => none

/-- `Harvard11ElitePump.is_running`: refresh the status, then
`not self._state == self.STATE.STOPPED`. -/
def harvard_is_running (statusStr : String) : Option Bool :=
  (harvard_get_status statusStr).map (fun st => !decide (st.state = STATE.stopped))

/-- `Harvard11ElitePump.get_direction`: `return self.STATE.INFUSING`,
unconditionally. -/
def harvard_get_direction : STATE := .infusing

/-- `_convert_volume_to_uL`: scale a volume by the metric prefix of its unit
string (`M` milli→µL ×1e3, `U` micro ×1, `N` nano ×1e-3, `P` pico ×1e-6);
a prefix outside the `match` leaves the value unchanged. -/
def convert_volume_to_uL (volume : ℚ) (units : List Char) : ℚ :=
  match units.head?.map Char.toUpper with
  | some 'M' => volume * 1000
  | some 'U' => volume
  | some 'N' => volume * (1 / 1000)
  | some 'P' => volume * (1 / 1000000)
  | _ => volume

/-- `Harvard11ElitePump.__ANS_TARGET_VOL_NOT_SET`. -/
def harvardTargetVolNotSet : String := "Target volume not set."

/-- `Harvard11ElitePump.get_target_volume_uL` as a function of the stripped
answer to the `tvolume` query: the literal "Target volume not set." answer
returns `0.0` without raising; otherwise the answer must split into exactly a
value and a unit field (`volume, units = ans.split()`), and the parsed value
is converted to µL by `_convert_volume_to_uL`. -/
def harvard_get_target_volume_uL (ans : String) : Option ℚ :=
  if ans = harvardTargetVolNotSet then some 0
  else
    match splitWs ans.data with
    | [vs, us] => (parseFloatL vs).map (fun v => convert_volume_to_uL v us)
    | _ => none

/-! ### GUI bolus logic (`drugPumpPanel` of `src/GUI/GUI.py`) -/

/-- The observable state of one pump behind the abstract `SyringePump`
interface: current rate and unit index, configured direction, whether it is
running, and the programmed target volume (0 meaning continuous mode). -/
structure PumpState where
  rate : ℚ
  units : ℕ
  dir : STATE
  running : Bool
  target : ℚ
  deriving DecidableEq

/-- `stop()`: the pump stops. -/
def pump_stop (s : PumpState) : PumpState := { s with running := false }

/-- `start()`: the pump runs with the configured parameters. -/
def pump_start (s : PumpState) : PumpState := { s with running := true }

/-- `set_direction(value)`. -/
def pump_set_direction (d : STATE) (s : PumpState) : PumpState := { s with dir := d }

/-- `set_rate(value, units)`. -/
def pump_set_rate (r : ℚ) (u : ℕ) (s : PumpState) : PumpState := { s with rate := r, units := u }

/-- `set_target_volume_uL(value)`. -/
def pump_set_target (v : ℚ) (s : PumpState) : PumpState := { s with target := v }

/-- `clear_target_volume()`: back to continuous mode. -/
def pump_clear_target (s : PumpState) : PumpState := { s with target := 0 }

/-- `is_running()`. -/
def pump_is_running (s : PumpState) : Bool := s.running

/-- `get_direction()`: a stopped pump reports `STATE.STOPPED`, a running pump
its configured direction (the adapter behaviour the spec's state machine and
`AladdinPump.get_direction` give). -/
def pump_get_direction (s : PumpState) : STATE := if s.running then s.dir else .stopped

/-- `drugPumpPanel.do_inject_drug`: save the current rate, direction (taken as
`STOPPED` when `is_running()` is false, else `get_direction()`) and units;
then stop the pump if it runs, set direction to `INFUSING`, set the bolus
rate and units, set the target volume, and start.  Returns the saved
`(rate, units, direction)` triple passed to the watcher, and the pump state
after the setup. -/
def do_inject_drug (bolusRate : ℚ) (bolusUnits : ℕ) (volume : ℚ) (s0 : PumpState) :
    (ℚ × ℕ × STATE) × PumpState :=
  let currRate := s0.rate
  let currDir := if pump_is_running s0 = false then STATE.stopped else pump_get_direction s0
  let currUnits := s0.units
  let s1 := if pump_is_running s0 then pump_stop s0 else s0
  let s2 := pump_set_direction .infusing s1
  let s3 := pump_set_rate bolusRate bolusUnits s2
  let s4 := pump_set_target volume s3
  let s5 := pump_start s4
  ((currRate, currUnits, currDir), s5)

/-- The device reaches its target volume and stops itself; the watcher's
`is_running()` poll then turns false. -/
def device_completes (s : PumpState) : PumpState := pump_stop s

/-- `drugPumpPanel.wait_for_end_of_injection` after its polling loop has seen
`is_running()` false: restore the saved rate and units; when the saved
direction is not `STOPPED`, also restore the direction, clear the target
volume and restart the pump. -/
def wait_for_end_of_injection (restoreRate : ℚ) (restoreUnits : ℕ) (restoreDir : STATE)
    (s : PumpState) : PumpState :=
  let s1 := pump_set_rate restoreRate restoreUnits s
  if ¬ restoreDir = STATE.stopped then
    pump_start (pump_clear_target (pump_set_direction restoreDir s1))
  else s1

/-- One full bolus cycle: setup by `do_inject_drug`, the device completing the
programmed volume, then the watcher's restore step. -/
def bolus_cycle (bolusRate : ℚ) (bolusUnits : ℕ) (volume : ℚ) (s0 : PumpState) : PumpState :=
  let r := do_inject_drug bolusRate bolusUnits volume s0
  wait_for_end_of_injection r.1.1 r.1.2.1 r.1.2.2 (device_completes r.2)

/-- `AladdinPump.clear_target_volume` sends `__CMD_SET_TARVOL % 0.0`: its
volume field is Python's rendering of the float `0.0`, not a `format_float`
rendering. -/
def aladdin_clear_target_cmd : String := "VOL" ++ "0.0" ++ "\r"

/-! ### Theorems -/

/-- Helper: a character that `getLast?` returns is a member of the original
list, also through the optional trailing-newline strip. -/
theorem mem_of_strip_getLast {l : List Char} {c : Char}
    (h : (stripTrailingNewline l).getLast? = some c) : c ∈ l := by
  have hmem : c ∈ stripTrailingNewline l := by
    rcases List.mem_getLast?_eq_getLast (show c ∈ (stripTrailingNewline l).getLast? from h) with
      ⟨hne, hc⟩
    exact hc ▸ List.getLast_mem hne
  unfold stripTrailingNewline at hmem
  by_cases hl : l.getLast? = some '\n'
  · rw [if_pos hl] at hmem
    exact (List.dropLast_sublist l).subset hmem
  · rwa [if_neg hl] at hmem

/-- C2 (counterexample): the decode path raises the same exception class for
different alarm sub-codes — the generic `AlarmException` carrying the raw
status string — so there is no per-sub-code `AlarmException` subtype. -/
theorem aladdin_alarm_single_class_cex :
    aladdinSendCommand (mkFrame 0 "A?R" "") = .error (.alarm "A?R") ∧
    aladdinSendCommand (mkFrame 0 "A?S" "") = .error (.alarm "A?S") ∧
    PumpError.cls (.alarm "A?R") = PumpError.cls (.alarm "A?S") ∧
    (PumpError.alarm "A?R").cls = PumpErrClass.alarm ∧
    (PumpError.alarm "A?R").cls ≠ PumpErrClass.aladdinAlarm := by
  refine ⟨rfl, rfl, rfl, rfl, by decide⟩

/-- C2 (amended): for every documented alarm sub-code, `send_command` on a
frame whose status field is `A?` plus that sub-code raises the single generic
`AlarmException` carrying the status string, instead of returning a triple. -/
theorem aladdin_alarm_raises_generic (c : Char) (hc : c ∈ aladdinAlarmChars) :
    aladdinSendCommandAll (mkFrame 0 (String.mk ['A', '?', c]) "") =
      .error (.alarm (String.mk ['A', '?', c])) := by
  fin_cases hc <;> rfl

/-- C2 witness: the amended theorem applied to the timeout sub-code `T`. -/
theorem aladdin_alarm_raises_generic_witness :
    'T' ∈ aladdinAlarmChars ∧
    aladdinSendCommandAll (mkFrame 0 (String.mk ['A', '?', 'T']) "") =
      .error (.alarm (String.mk ['A', '?', 'T'])) :=
  ⟨by decide, aladdin_alarm_raises_generic 'T' (by decide)⟩

/-- C3 (amended): a received byte string with no `0x03` terminator anywhere
fails the frame pattern and raises `InvalidAnswer`; but a frame echoing a
different two-digit address than the pump's own (here `05` received by the
pump at address 0) is decoded and returned normally — the echoed address is
captured by the pattern and never compared. -/
theorem aladdin_missing_terminator_invalid :
    (∀ s : String, '\x03' ∉ s.data → aladdinParse s = .error .invalidAnswer) ∧
    aladdinSendCommand "\x0205S\x03" = .ok "" := by
  constructor
  · intro s h
    have hne : ¬ (stripTrailingNewline s.data).getLast? = some '\x03' :=
      fun he => h (mem_of_strip_getLast he)
    unfold aladdinParse ansMatchL
    simp [hne]
  · rfl

/-- C3 witness: the amended theorem applied to the terminator-free answer
string `"hello"`. -/
theorem aladdin_missing_terminator_invalid_witness :
    '\x03' ∉ "hello".data ∧ aladdinParse "hello" = .error .invalidAnswer :=
  ⟨by decide, aladdin_missing_terminator_invalid.1 "hello" (by decide)⟩

/-- C3 (counterexample): the claim says a mismatched echoed address raises
`InvalidAnswer`; the pump at address 0 decoding a frame whose echoed address
is `05` instead returns the message payload normally. -/
theorem aladdin_mismatched_address_ok_cex :
    aladdinSendCommand "\x0205S\x03" = .ok "" ∧
    (Except.ok "" : Except PumpError String) ≠ .error .invalidAnswer :=
  ⟨rfl, fun h => Except.noConfusion h⟩

/-- C4 (code evaluation): `run()` issues `"RUN\r"`, and when the device then
answers the forward prompt to the direction query, `get_direction()` decodes
`INFUSING` — yet `run()` compares that enum value with the strings
`"FWD"`/`"REV"`, which is always false in Python, so `start()` raises
`SyringePumpNotRunningException` even on a running device; symmetrically
`stop()` compares against the string `"STOPPED"` and always raises
`SyringePumpNotStoppedException`. -/
theorem m11_start_stop_always_raise :
    m11_CMD_RUN = "RUN\r" ∧
    m11_get_direction "\r\n>" = .state .infusing ∧
    m11_run "\r\n>" = .error .notRunning ∧
    m11_get_direction "\r\n:" = .state .stopped ∧
    m11_stop "\r\n:" = .error .notStopped :=
  ⟨rfl, rfl, rfl, rfl, rfl⟩

/-- C5 (amended): for the Aladdin adapter, whenever `is_running()` decodes
false, `get_direction()` reports `STOPPED` without further queries; and the
Model 11 plus `is_running()` never returns false at all (it compares the
status info string with the `STATE.STOPPED` enum member), so the agreement is
vacuous there. -/
theorem aladdin_stopped_direction_agreement :
    (∀ dev : AladdinDevice, aladdin_is_running dev = .ok false →
      aladdin_get_direction dev = .ok .stopped) ∧
    (∀ info : String, m11_is_running info = true) := by
  constructor
  · intro dev h
    unfold aladdin_get_direction
    rw [h]
  · intro info
    rfl

/-- C5 witness: the amended theorem applied to a device reporting the stopped
status `S`. -/
theorem aladdin_stopped_direction_agreement_witness :
    aladdin_is_running ⟨'S', ""⟩ = .ok false ∧
    aladdin_get_direction ⟨'S', ""⟩ = .ok .stopped :=
  ⟨rfl, aladdin_stopped_direction_agreement.1 ⟨'S', ""⟩ rfl⟩

/-- C5 (counterexample): the Harvard 11 Elite adapter violates the claimed
invariant — on a status line whose flag string starts lower-case the state is
`STOPPED` and `is_running()` returns false, yet `get_direction()` returns
`INFUSING` unconditionally. -/
theorem harvard_stopped_reports_infusing_cex :
    harvard_is_running "0 0 0 i..i.i" = some false ∧
    harvard_get_direction = STATE.infusing ∧
    STATE.infusing ≠ STATE.stopped :=
  ⟨by decide, rfl, by decide⟩

/-- C9 (confirmed): for every one-letter device status, the Aladdin
`is_running()` decodes true exactly for `I` (infusing) and `W` (withdrawing);
the paused `P`, pause-phase `T` and trigger-wait `U` statuses — though not
the stopped status `S` — all yield false. -/
theorem aladdin_is_running_status_iff (c : Char) (hc : c ∈ aladdinStatusChars) :
    aladdin_is_running_ans (mkFrame 0 (String.mk [c]) "") =
      .ok (c == 'I' || c == 'W') := by
  fin_cases hc <;> rfl

/-- C9 witness: the theorem applied to the paused status `P`, where the device
is not stopped and yet `is_running()` is false. -/
theorem aladdin_is_running_status_iff_witness :
    'P' ∈ aladdinStatusChars ∧
    aladdin_is_running_ans (mkFrame 0 (String.mk ['P']) "") = .ok false :=
  ⟨by decide, aladdin_is_running_status_iff 'P' (by decide)⟩

/-- C7 (confirmed): a bolus started while the pump runs saves the current
rate, units and direction; after the device finishes the programmed volume
the watcher restores exactly the saved rate and units and, the saved
direction not being `STOPPED`, restores the direction, clears the target
volume and restarts the pump.  A bolus started on a stopped pump saves
direction `STOPPED`, and the watcher restores only rate and units, leaving
the pump stopped. -/
theorem gui_bolus_restores (br : ℚ) (bu : ℕ) (vol : ℚ) (s0 : PumpState) :
    (s0.running = true → s0.dir ≠ STATE.stopped →
      bolus_cycle br bu vol s0 =
        { rate := s0.rate, units := s0.units, dir := s0.dir, running := true, target := 0 }) ∧
    (s0.running = false →
      bolus_cycle br bu vol s0 =
        { rate := s0.rate, units := s0.units, dir := STATE.infusing, running := false,
          target := vol }) := by
  constructor
  · intro h1 h2
    simp [bolus_cycle, do_inject_drug, wait_for_end_of_injection, device_completes,
      pump_is_running, pump_get_direction, pump_stop, pump_start, pump_set_direction,
      pump_set_rate, pump_set_target, pump_clear_target, h1, h2]
  · intro h1
    simp [bolus_cycle, do_inject_drug, wait_for_end_of_injection, device_completes,
      pump_is_running, pump_get_direction, pump_stop, pump_start, pump_set_direction,
      pump_set_rate, pump_set_target, pump_clear_target, h1]

/-- C7 witness: the theorem applied to a pump infusing at rate 3 with unit
index 1 before a 50 µL bolus at rate 1. -/
theorem gui_bolus_restores_witness :
    bolus_cycle 1 1 50 ⟨3, 1, STATE.infusing, true, 0⟩ =
      { rate := 3, units := 1, dir := STATE.infusing, running := true, target := 0 } :=
  (gui_bolus_restores 1 1 50 ⟨3, 1, STATE.infusing, true, 0⟩).1 rfl (by decide)

/-- Helper: `get_target_volume_uL` on a device echoing a stored field that
parses to `q` returns `q` as-is under the µL regime (diameter ≤ 14) and
`q * 1000` under the mL regime. -/
theorem aladdin_get_target_on_field (d : ℚ) (field : String) (q : ℚ)
    (hp : parseFloatL field.data = some q) :
    aladdin_get_target_volume_uL d field = some (if d ≤ 14 then q else q * 1000) := by
  unfold aladdin_get_target_volume_uL aladdin_vol_answer
  by_cases hc : d ≤ 14
  · simp only [hc, if_true, String.data_append]
    have hlen : (field.data ++ ['U', 'L']).length - 2 = field.data.length := by simp
    rw [hlen, List.take_left, List.drop_left, hp]
    rfl
  · simp only [hc, if_false, String.data_append]
    have hlen : (field.data ++ ['M', 'L']).length - 2 = field.data.length := by simp
    rw [hlen, List.take_left, List.drop_left, hp]
    rfl

/-- C1 (amended): the set-then-get target volume round trip returns `x`
exactly whenever `x`, expressed in the wire unit the current diameter
implies (µL for d ≤ 14 mm, mL — the value times 1e-3 — above), is unchanged
by the five-character `format_float` quantization; the µL↔mL conversion is
decided from the diameter read at each call, in both regimes. -/
theorem aladdin_target_roundtrip_exact (d x : ℚ) (hd : 0 < d) (hx : 0 ≤ x)
    (hq : parseFloatL (format_float (if 14 < d then x * (1 / 1000) else x)).data =
      some (if 14 < d then x * (1 / 1000) else x)) :
    aladdin_target_roundtrip d x = .ok (some x) := by
  rw [aladdin_target_roundtrip, aladdin_set_target_field, if_neg (not_lt.mpr hx)]
  simp only [Except.map]
  rw [aladdin_get_target_on_field d _ _ hq]
  by_cases hcase : (14 : ℚ) < d
  · rw [if_pos hcase, if_neg (not_le.mpr hcase)]
    congr 1
    ring
  · rw [if_neg hcase, if_pos (not_lt.mp hcase)]

/-- C1 witness: the amended theorem at the spec's concrete scenarios B and C —
diameter 10 mm with 500 µL (wire field `500.0` in µL), and diameter 20 mm
with 5000 µL (wire field `5.000` in mL). -/
theorem aladdin_target_roundtrip_exact_witness :
    aladdin_target_roundtrip 10 500 = .ok (some 500) ∧
    aladdin_target_roundtrip 20 5000 = .ok (some 5000) := by
  constructor
  · refine aladdin_target_roundtrip_exact 10 500 (by norm_num) (by norm_num) ?_
    rw [if_neg (by norm_num : ¬ (14 : ℚ) < 10)]
    have hm : roundMilli 500 = 500000 := by norm_num [roundMilli]
    have hf : format_float (500 : ℚ) = "500.0" := by
      unfold format_float fmt05_3
      rw [hm]
      rfl
    rw [hf]
    have hp : parseFloatL "500.0".data =
        some ((natValL ['5', '0', '0'] : ℚ) + (natValL ['0'] : ℚ) / 10 ^ 1) := rfl
    rw [hp]
    norm_num [show natValL ['5', '0', '0'] = 500 from rfl, show natValL ['0'] = 0 from rfl]
  · refine aladdin_target_roundtrip_exact 20 5000 (by norm_num) (by norm_num) ?_
    rw [if_pos (by norm_num : (14 : ℚ) < 20)]
    have hm : roundMilli (5000 * (1 / 1000)) = 5000 := by norm_num [roundMilli]
    have hf : format_float (5000 * (1 / 1000) : ℚ) = "5.000" := by
      unfold format_float fmt05_3
      rw [hm]
      rfl
    rw [hf]
    have hp : parseFloatL "5.000".data =
        some ((natValL ['5'] : ℚ) + (natValL ['0', '0', '0'] : ℚ) / 10 ^ 3) := rfl
    rw [hp]
    norm_num [show natValL ['5'] = 5 from rfl, show natValL ['0', '0', '0'] = 0 from rfl]

/-- C1 (counterexample): at diameter 10 mm the round trip of 123456 µL
returns 12345 µL — the five-character field drops a whole digit, a relative
error beyond any floating rounding, so the claim does not hold for every
non-negative volume. -/
theorem aladdin_target_roundtrip_overflow_cex :
    aladdin_target_roundtrip 10 123456 = .ok (some 12345) ∧
    (12345 : ℚ) * 2 < 123456 := by
  constructor
  · rw [aladdin_target_roundtrip, aladdin_set_target_field,
      if_neg (by norm_num : ¬ (123456 : ℚ) < 0), if_neg (by norm_num : ¬ (14 : ℚ) < 10)]
    simp only [Except.map]
    have hm : roundMilli 123456 = 123456000 := by norm_num [roundMilli]
    have hf : format_float (123456 : ℚ) = "12345" := by
      unfold format_float fmt05_3
      rw [hm]
      rfl
    rw [hf]
    have hp : parseFloatL "12345".data = some ((natValL "12345".data : ℕ) : ℚ) := rfl
    rw [aladdin_get_target_on_field 10 "12345" _ hp, if_pos (by norm_num : (10 : ℚ) ≤ 14)]
    norm_num [show natValL "12345".data = 12345 from rfl]
  · norm_num

/-- C6 (code evaluation): setting rate 10.05 in µL/min (unit index 3) writes
the field `10.05`; the device echoes `10.05UM`, from which `get_units()`
correctly decodes index 3 by reading the last two characters, while
`get_rate()` strips three characters and parses `10.0` — the final digit of
the value is lost, so the round trip returns 10.0 instead of 10.05. -/
theorem aladdin_rate_roundtrip_drops_digit :
    aladdin_rate_roundtrip (201 / 20) 3 = .ok (some 10, some 3) ∧
    (10 : ℚ) ≠ 201 / 20 := by
  constructor
  · have hm : roundMilli (201 / 20) = 10050 := by norm_num [roundMilli]
    have hf : format_float (201 / 20 : ℚ) = "10.05" := by
      unfold format_float fmt05_3
      rw [hm]
      rfl
    unfold aladdin_rate_roundtrip aladdin_set_rate_field
    rw [if_neg (by norm_num : ¬ (201 / 20 : ℚ) ≤ 0), hf]
    simp only [Except.map]
    rw [show aladdin_get_rate_of (aladdin_rate_answer "10.05" 3) =
        some ((natValL ['1', '0'] : ℚ) + (natValL ['0'] : ℚ) / 10 ^ 1) from rfl,
      show aladdin_get_units_of (aladdin_rate_answer "10.05" 3) = some 3 from rfl]
    norm_num [show natValL ['1', '0'] = 10 from rfl, show natValL ['0'] = 0 from rfl]
  · norm_num

/-- Helper: rendering zero with any fuel yields no digits. -/
theorem natToDigitsRev_zero (fuel : ℕ) : natToDigitsRev fuel 0 = [] := by
  cases fuel <;> simp [natToDigitsRev]

/-- Helper: a digit character is never the decimal dot. -/
theorem digitChar_ne_dot {d : ℕ} (h : d < 10) : digitChar d ≠ '.' := by
  interval_cases d <;> decide

/-- Helper: a digit character passes `Char.isDigit`. -/
theorem digitChar_isDigit {d : ℕ} (h : d < 10) : (digitChar d).isDigit = true := by
  interval_cases d <;> decide

/-- Helper: `charVal` inverts `digitChar` on digit values. -/
theorem charVal_digitChar {d : ℕ} (h : d < 10) : charVal (digitChar d) = d := by
  interval_cases d <;> decide

/-- Helper: the decimal rendering of a two-digit number. -/
theorem natToDigits_two {a : ℕ} (h1 : 10 ≤ a) (h2 : a < 100) :
    natToDigits a = [digitChar (a / 10), digitChar (a % 10)] := by
  obtain ⟨g, rfl⟩ : ∃ g, a = g + 2 := ⟨a - 2, by omega⟩
  have hz : (g + 2) / 10 / 10 = 0 := by omega
  have hmod : (g + 2) / 10 % 10 = (g + 2) / 10 := by omega
  unfold natToDigits
  rw [if_neg (by omega : ¬ g + 2 = 0)]
  simp only [natToDigitsRev]
  rw [if_neg (by omega : ¬ g + 2 = 0), if_neg (by omega : ¬ (g + 2) / 10 = 0), hz,
    natToDigitsRev_zero, hmod]
  simp

/-- Helper: `takeWhile` up to the first dot returns the dot-free prefix. -/
theorem takeWhile_ne_dot (ds fs : List Char) (h : '.' ∉ ds) :
    (ds ++ '.' :: fs).takeWhile (· ≠ '.') = ds := by
  induction ds with
  | nil => simp [List.takeWhile]
  | cons c rest ih =>
      have hc : c ≠ '.' := fun hcc => h (hcc ▸ List.mem_cons_self c rest)
      have hrest : '.' ∉ rest := fun hm => h (List.mem_cons_of_mem c hm)
      rw [List.cons_append, List.takeWhile_cons_of_pos (by simp [hc]), ih hrest]

/-- Helper: `dropWhile` up to the first dot returns the dot and what follows. -/
theorem dropWhile_ne_dot (ds fs : List Char) (h : '.' ∉ ds) :
    (ds ++ '.' :: fs).dropWhile (· ≠ '.') = '.' :: fs := by
  induction ds with
  | nil => simp [List.dropWhile]
  | cons c rest ih =>
      have hc : c ≠ '.' := fun hcc => h (hcc ▸ List.mem_cons_self c rest)
      have hrest : '.' ∉ rest := fun hm => h (List.mem_cons_of_mem c hm)
      rw [List.cons_append, List.dropWhile_cons_of_pos (by simp [hc]), ih hrest]

/-- Helper: `float()` on a digit string, a dot, and a digit string. -/
theorem parseFloatL_digits_dot (ds fs : List Char) (hds : ds ≠ [])
    (hd : ds.all Char.isDigit = true) (hf : fs.all Char.isDigit = true)
    (hnd : '.' ∉ ds) :
    parseFloatL (ds ++ '.' :: fs) =
      some ((natValL ds : ℚ) + (natValL fs : ℚ) / 10 ^ fs.length) := by
  unfold parseFloatL
  rw [takeWhile_ne_dot ds fs hnd, dropWhile_ne_dot ds fs hnd]
  simp [hds, hd, hf]

/-- Helper: the characters of a `format_float` rendering. -/
theorem data_format_float (v : ℚ) : (format_float v).data = (fmt05_3 v).take 5 := rfl

/-- Helper: taking five characters of the six-character `"ab.cde"` shape. -/
theorem take5_of_six (c1 c2 c3 c4 c5 c6 : Char) :
    (List.replicate (5 - ([c1, c2] ++ c3 :: [c4, c5, c6]).length) '0' ++
      ([c1, c2] ++ c3 :: [c4, c5, c6])).take 5 = [c1, c2, c3, c4, c5] := rfl

/-- Helper: the value of a two-character digit string. -/
theorem natValL_two (x y : Char) : natValL [x, y] = 10 * charVal x + charVal y := by
  simp [natValL]

/-- C8 (amended): the rate field sent by `set_rate` and the volume field sent
by `set_target_volume_uL` are the `format_float` rendering of the value (in
the wire unit); and in the two-decimal regime 10 ≤ v ≤ 99.9 the numeric value
of the five-character field is `⌊round(1000 v)/10⌋/100` — the three-decimal
rounded rendering with its final digit dropped.  This usually truncates, but
when the rounding at the third decimal carries it exceeds plain truncation of
`v`. -/
theorem format_float_truncates_rounded :
    (∀ (v : ℚ) (u : Fin 4), 0 < v → aladdin_set_rate_field v u = .ok (format_float v)) ∧
    (∀ d x : ℚ, 0 ≤ x →
      aladdin_set_target_field d x = .ok (format_float (if 14 < d then x * (1 / 1000) else x))) ∧
    (∀ v : ℚ, 10 ≤ v → v ≤ 999 / 10 →
      parseFloatL (format_float v).data = some (((roundMilli v / 10 : ℤ) : ℚ) / 100)) := by
  refine ⟨?_, ?_, ?_⟩
  · intro v u hv
    rw [aladdin_set_rate_field, if_neg (not_le.mpr hv)]
  · intro d x hx
    rw [aladdin_set_target_field, if_neg (not_lt.mpr hx)]
  · intro v h1 h2
    have hm0 : (10000 : ℤ) ≤ roundMilli v := by
      rw [roundMilli]
      exact Int.le_floor.mpr (by push_cast; linarith)
    have hm1 : roundMilli v < 99901 := by
      rw [roundMilli]
      exact Int.floor_lt.mpr (by push_cast; linarith)
    have hmn : ((roundMilli v).toNat : ℤ) = roundMilli v := Int.toNat_of_nonneg (by omega)
    rw [data_format_float]
    simp only [fmt05_3]
    generalize hmeq : (roundMilli v).toNat = m at hmn
    have hb0 : 10000 ≤ m := by omega
    have hb1 : m < 100000 := by omega
    rw [natToDigits_two (by omega) (by omega)]
    unfold pad3 padZeros
    rw [take5_of_six]
    rw [show ([digitChar (m / 1000 / 10), digitChar (m / 1000 % 10), '.',
        digitChar (m % 1000 / 100), digitChar (m % 1000 / 10 % 10)] : List Char) =
      [digitChar (m / 1000 / 10), digitChar (m / 1000 % 10)] ++ '.' ::
        [digitChar (m % 1000 / 100), digitChar (m % 1000 / 10 % 10)] from rfl]
    rw [parseFloatL_digits_dot _ _ (by simp)
      (by simp [digitChar_isDigit (show m / 1000 / 10 < 10 by omega),
        digitChar_isDigit (show m / 1000 % 10 < 10 by omega)])
      (by simp [digitChar_isDigit (show m % 1000 / 100 < 10 by omega),
        digitChar_isDigit (show m % 1000 / 10 % 10 < 10 by omega)])
      (by
        simp only [List.mem_cons, List.not_mem_nil, or_false, not_or]
        exact ⟨(digitChar_ne_dot (show m / 1000 / 10 < 10 by omega)).symm,
          (digitChar_ne_dot (show m / 1000 % 10 < 10 by omega)).symm⟩)]
    rw [natValL_two, natValL_two,
      charVal_digitChar (show m / 1000 / 10 < 10 by omega),
      charVal_digitChar (show m / 1000 % 10 < 10 by omega),
      charVal_digitChar (show m % 1000 / 100 < 10 by omega),
      charVal_digitChar (show m % 1000 / 10 % 10 < 10 by omega)]
    rw [← hmn]
    congr 1
    have hdiv : ((m : ℤ) / 10) = ((m / 10 : ℕ) : ℤ) := by omega
    rw [hdiv]
    have hval : 10 * (m / 1000 / 10) + m / 1000 % 10 = m / 1000 := by omega
    have hfrac : 10 * (m % 1000 / 100) + m % 1000 / 10 % 10 = m % 1000 / 10 := by omega
    have hsplit : m / 10 = 100 * (m / 1000) + m % 1000 / 10 := by omega
    rw [hval, hfrac, hsplit]
    rw [show ([digitChar (m % 1000 / 100), digitChar (m % 1000 / 10 % 10)] : List Char).length = 2
      from rfl]
    rw [Int.cast_natCast]
    push_cast
    ring

/-- C8 witness: the amended theorem applied at rate 2 (unit mL/min), target
500 µL at diameter 10 mm, and the two-decimal characterization at v = 10.05. -/
theorem format_float_truncates_rounded_witness :
    aladdin_set_rate_field 2 1 = .ok (format_float 2) ∧
    aladdin_set_target_field 10 500 =
      .ok (format_float (if (14 : ℚ) < 10 then 500 * (1 / 1000) else 500)) ∧
    parseFloatL (format_float (201 / 20)).data =
      some (((roundMilli (201 / 20) / 10 : ℤ) : ℚ) / 100) :=
  ⟨format_float_truncates_rounded.1 2 1 (by norm_num),
   format_float_truncates_rounded.2.1 10 500 (by norm_num),
   format_float_truncates_rounded.2.2 (201 / 20) (by norm_num) (by norm_num)⟩

/-- C8 (counterexample): at v = 10.0599 the wire value is 10.06 — strictly
larger than v — so the kept digits are not merely truncated (dropped): the
rounding to three decimals performed before the five-character cut can round
the value up. -/
theorem format_float_rounds_up_cex :
    (parseFloatL (format_float (100599 / 10000)).data = some (1006 / 100) ∧
      (100599 : ℚ) / 10000 < 1006 / 100) ∧
    (aladdin_clear_target_cmd = "VOL0.0\r" ∧ format_float 0 = "0.000" ∧
      ("0.0" : String) ≠ "0.000") := by
  refine ⟨⟨?_, by norm_num⟩, rfl, ?_, by decide⟩
  · have hm : roundMilli (100599 / 10000) = 10060 := by norm_num [roundMilli]
    have hf : format_float (100599 / 10000 : ℚ) = "10.06" := by
      unfold format_float fmt05_3
      rw [hm]
      rfl
    rw [hf]
    rw [show parseFloatL "10.06".data =
        some ((natValL ['1', '0'] : ℚ) + (natValL ['0', '6'] : ℚ) / 10 ^ 2) from rfl]
    norm_num [show natValL ['1', '0'] = 10 from rfl, show natValL ['0', '6'] = 6 from rfl]
  · have hm : roundMilli 0 = 0 := by norm_num [roundMilli]
    unfold format_float fmt05_3
    rw [hm]
    rfl

/-- Helper: splitting a whitespace-free non-empty tail yields one field. -/
theorem splitWsAux_all_non_ws (cs : List Char) :
    ∀ acc : List Char, (∀ c ∈ cs, isWsChar c = false) → acc.reverse ++ cs ≠ [] →
      splitWsAux cs acc = [acc.reverse ++ cs] := by
  induction cs with
  | nil =>
      intro acc _ hne
      have hacc : acc ≠ [] := by simpa using hne
      simp [splitWsAux, hacc]
  | cons c rest ih =>
      intro acc h hne
      have hc : isWsChar c = false := h c (List.mem_cons_self c rest)
      have hrest : ∀ x ∈ rest, isWsChar x = false := fun x hx => h x (List.mem_cons_of_mem c hx)
      simp only [splitWsAux, hc]
      rw [if_neg (by simp)]
      rw [ih (c :: acc) hrest (by simp)]
      simp

/-- Helper: a whitespace-free field followed by a space starts a new field. -/
theorem splitWsAux_field_break (vs us : List Char) :
    ∀ acc : List Char, (∀ c ∈ vs, isWsChar c = false) → acc.reverse ++ vs ≠ [] →
      splitWsAux (vs ++ ' ' :: us) acc = (acc.reverse ++ vs) :: splitWsAux us [] := by
  induction vs with
  | nil =>
      intro acc _ hne
      have hacc : acc ≠ [] := by simpa using hne
      simp only [List.nil_append, splitWsAux]
      rw [if_pos (by decide), if_neg hacc]
      simp
  | cons c rest ih =>
      intro acc h hne
      have hc : isWsChar c = false := h c (List.mem_cons_self c rest)
      have hrest : ∀ x ∈ rest, isWsChar x = false := fun x hx => h x (List.mem_cons_of_mem c hx)
      simp only [List.cons_append, splitWsAux, hc]
      rw [if_neg (by simp)]
      show splitWsAux (rest ++ ' ' :: us) (c :: acc) = (acc.reverse ++ c :: rest) :: splitWsAux us []
      rw [ih (c :: acc) hrest (by simp)]
      simp

/-- Helper: `split()` of a value field, one space and a unit field. -/
theorem splitWs_pair (vs us : List Char)
    (hvs : ∀ c ∈ vs, isWsChar c = false) (hus : ∀ c ∈ us, isWsChar c = false)
    (hvne : vs ≠ []) (hune : us ≠ []) :
    splitWs (vs ++ ' ' :: us) = [vs, us] := by
  unfold splitWs
  rw [splitWsAux_field_break vs us [] hvs (by simpa using hvne)]
  rw [splitWsAux_all_non_ws us [] hus (by simpa using hune)]
  simp

/-- C10 (confirmed): `get_target_volume_uL` answers `0.0`, without raising, on
the literal "Target volume not set."; on every other answer that splits into
a parsable value field and a unit field it returns the value converted to µL
by the metric prefix of the unit. -/
theorem harvard_target_volume_spec :
    harvard_get_target_volume_uL harvardTargetVolNotSet = some 0 ∧
    (∀ (vs us : List Char) (v : ℚ),
      parseFloatL vs = some v →
      (∀ c ∈ vs, isWsChar c = false) → (∀ c ∈ us, isWsChar c = false) →
      vs ≠ [] → us ≠ [] →
      String.mk (vs ++ ' ' :: us) ≠ harvardTargetVolNotSet →
      harvard_get_target_volume_uL (String.mk (vs ++ ' ' :: us)) =
        some (convert_volume_to_uL v us)) := by
  constructor
  · rfl
  · intro vs us v hv hvs hus hvne hune hne
    unfold harvard_get_target_volume_uL
    rw [if_neg hne]
    rw [show (String.mk (vs ++ ' ' :: us)).data = vs ++ ' ' :: us from rfl]
    rw [splitWs_pair vs us hvs hus hvne hune]
    show Option.map (fun w => convert_volume_to_uL w us) (parseFloatL vs) =
      some (convert_volume_to_uL v us)
    rw [hv]
    rfl

/-- C10 witness: the theorem applied to the answer `5.0 ml`, converted by the
milli prefix to 5000 µL. -/
theorem harvard_target_volume_spec_witness :
    harvard_get_target_volume_uL "5.0 ml" = some 5000 := by
  have h := harvard_target_volume_spec.2 ['5', '.', '0'] ['m', 'l'] 5
    (by
      rw [show parseFloatL ['5', '.', '0'] =
          some ((natValL ['5'] : ℚ) + (natValL ['0'] : ℚ) / 10 ^ 1) from rfl]
      norm_num [show natValL ['5'] = 5 from rfl, show natValL ['0'] = 0 from rfl])
    (by decide) (by decide) (by decide) (by decide) (by decide)
  rw [show ("5.0 ml" : String) = String.mk (['5', '.', '0'] ++ ' ' :: ['m', 'l']) from rfl]
  rw [h]
  rw [show convert_volume_to_uL 5 ['m', 'l'] = 5 * 1000 from rfl]
  norm_num
